import Mathlib

/-!
Verification of pytray's aiothreads module (src/pytray/aiothreads.py).

The module bridges a single-threaded asyncio event loop running on a dedicated
worker thread with ordinary blocking callers.  We embed it as a deterministic
state machine: futures of both kinds (asyncio futures, "aio", and
concurrent.futures thread futures) live in a heap of once-settable cells;
`loop.call_soon_threadsafe` posts defunctionalized callbacks onto a FIFO queue
that the loop thread drains in order; done-callback chains registered by
`aio_future_chain_thread` / `thread_future_chain_aio` are stored as (src, dst)
pairs and fired when the source settles.  The recursive firing of chains is
bounded by an explicit fuel parameter (the recursion depth is the nesting depth
of future-valued results, so any fuel at least that depth computes the real
behaviour; theorems use a fuel that is ample for the flows they describe).
Caller-supplied work is a function from the side-effect log to a new log plus
a value-or-exception, mirroring a Python callable that can mutate state and
raise.  Blocking waits are modelled against the drained loop: a future still
pending after the loop has processed everything queued never settles, so
`result(timeout)` on it raises the timeout error and `result()` with no
timeout blocks forever.
-/

namespace Pytray

/-- Python exception kinds that occur in the module.  `timeoutError` is
concurrent.futures.TimeoutError, `cancelledError` is
asyncio/concurrent.futures.CancelledError (which since Python 3.8 is not an
Exception subclass, so bare `except Exception` does not catch it),
`stopAsyncIteration` ends an async iterator. -/
inductive Exc where
  | runtimeError (msg : String)
  | valueError (msg : String)
  | timeoutError (msg : String)
  | cancelledError
  | stopAsyncIteration
  deriving Repr, DecidableEq

/-- Is this a concurrent.futures.TimeoutError (what `await_` catches)? -/
def Exc.isTimeoutKind : Exc → Bool
  | .timeoutError _ => true
  | _ => false

/-- Is this CancelledError (a BaseException that `except Exception` misses)? -/
def Exc.isCancelledKind : Exc → Bool
  | .cancelledError => true
  | _ => false

/-- Python values flowing through the scheduler.  A value can itself be a
future of either kind, which is what the recursive chaining is about. -/
inductive Val where
  | none
  | bool (b : Bool)
  | int (n : Int)
  | str (s : String)
  | threadFut (i : Nat)
  | aioFut (i : Nat)
  deriving Repr, DecidableEq

/-- asyncio.isfuture: true exactly for asyncio (loop-native) futures. -/
def Val.isfuture : Val → Bool
  | .aioFut _ => true
  | _ => false

/-- isinstance(result, ThreadFuture): true exactly for thread futures. -/
def Val.isThreadFuture : Val → Bool
  | .threadFut _ => true
  | _ => false

/-- Python truthiness, used by async_ctx's suppression check
`if not self.await_(aexit(...))`. -/
def Val.truthy : Val → Bool
  | .none => false
  | .bool b => b
  | .int n => decide (n ≠ 0)
  | .str s => decide (s ≠ "")
  | .threadFut _ => true
  | .aioFut _ => true

/-- The single settlement of a future: a value, an exception, or cancellation. -/
inductive Settled where
  | value (v : Val)
  | exc (e : Exc)
  | cancelled
  deriving Repr, DecidableEq

/-- A future cell: pending until its one settlement. -/
inductive FutState where
  | pending
  | settled (s : Settled)
  deriving Repr, DecidableEq

/-- The futures heap.  `aio` are asyncio futures (loop-native), `thread` are
concurrent.futures futures.  `aioChains` holds the done-callbacks registered
by aio_future_chain_thread as (source aio future, destination thread future);
`threadChains` symmetrically for thread_future_chain_aio. -/
structure Heap where
  aio : List FutState
  thread : List FutState
  aioChains : List (Nat × Nat)
  threadChains : List (Nat × Nat)
  deriving Repr, DecidableEq

mutual

/-- Settle an asyncio future (asyncio.Future.set_result / set_exception /
cancel): a no-op when already settled, otherwise record the settlement and
fire the done-callbacks registered against this future. -/
def settleAio (fuel : Nat) (h : Heap) (i : Nat) (st : Settled) : Heap :=
  match fuel with
  | 0 => h
  | f+1 =>
    match h.aio.get? i with
    | some .pending =>
        let h1 : Heap := { h with aio := h.aio.set i (.settled st) }
        fireAioChains f h1 h1.aioChains i
    | _ => h
termination_by structural fuel

/-- Settle a thread future (ThreadFuture.set_result / set_exception / cancel,
each a no-op once settled) and fire its registered done-callbacks. -/
def settleThread (fuel : Nat) (h : Heap) (i : Nat) (st : Settled) : Heap :=
  match fuel with
  | 0 => h
  | f+1 =>
    match h.thread.get? i with
    | some .pending =>
        let h1 : Heap := { h with thread := h.thread.set i (.settled st) }
        fireThreadChains f h1 h1.threadChains i
    | _ => h
termination_by structural fuel

/-- Fire every done-callback of aio_future_chain_thread whose source is the
just-settled aio future `src`. -/
def fireAioChains (fuel : Nat) (h : Heap) (cbs : List (Nat × Nat)) (src : Nat) : Heap :=
  match fuel with
  | 0 => h
  | f+1 =>
    match cbs with
    | [] => h
    | c :: rest =>
        let h1 := if c.1 = src then aioDone f h src c.2 else h
        fireAioChains f h1 rest src
termination_by structural fuel

/-- Fire every done-callback of thread_future_chain_aio whose source is the
just-settled thread future `src`. -/
def fireThreadChains (fuel : Nat) (h : Heap) (cbs : List (Nat × Nat)) (src : Nat) : Heap :=
  match fuel with
  | 0 => h
  | f+1 =>
    match cbs with
    | [] => h
    | c :: rest =>
        let h1 := if c.1 = src then threadDone f h src c.2 else h
        fireThreadChains f h1 rest src
termination_by structural fuel

/-- The `done` callback body of aio_future_chain_thread: copy the settlement
of aio future `src` over to thread future `dst`; when the value is itself an
asyncio future, mint a fresh thread future, chain it to that inner future,
and propagate the fresh thread future as the value instead. -/
def aioDone (fuel : Nat) (h : Heap) (src dst : Nat) : Heap :=
  match fuel with
  | 0 => h
  | f+1 =>
    match h.aio.get? src with
    | some (.settled (.value v)) =>
        match v with
        | .aioFut inner =>
            let n := h.thread.length
            let h1 : Heap := { h with thread := h.thread ++ [.pending] }
            let h2 := aio_future_chain_thread f h1 inner n
            settleThread f h2 dst (.value (.threadFut n))
        | w => settleThread f h dst (.value w)
    | some (.settled .cancelled) => settleThread f h dst .cancelled
    | some (.settled (.exc e)) => settleThread f h dst (.exc e)
    | _ => h
termination_by structural fuel

/-- The `done` callback body of thread_future_chain_aio: copy the settlement
of thread future `src` over to aio future `dst` (the real code marshals each
dst mutation onto the loop with call_soon_threadsafe; the drained-loop model
applies it directly); a thread-future value is rewrapped as a fresh aio
future chained to it. -/
def threadDone (fuel : Nat) (h : Heap) (src dst : Nat) : Heap :=
  match fuel with
  | 0 => h
  | f+1 =>
    match h.thread.get? src with
    | some (.settled (.value v)) =>
        match v with
        | .threadFut inner =>
            let n := h.aio.length
            let h1 : Heap := { h with aio := h.aio ++ [.pending] }
            let h2 := thread_future_chain_aio f h1 inner n
            settleAio f h2 dst (.value (.aioFut n))
        | w => settleAio f h dst (.value w)
    | some (.settled .cancelled) => settleAio f h dst .cancelled
    | some (.settled (.exc e)) => settleAio f h dst (.exc e)
    | _ => h
termination_by structural fuel

/-- aio_future_chain_thread(aio_future, future): register the `done` callback
on the source aio future.  asyncio runs a callback added to an already-done
future at the next loop iteration, which the model renders as firing it
immediately. -/
def aio_future_chain_thread (fuel : Nat) (h : Heap) (src dst : Nat) : Heap :=
  match fuel with
  | 0 => h
  | f+1 =>
    match h.aio.get? src with
    | some .pending => { h with aioChains := h.aioChains ++ [(src, dst)] }
    | some (.settled _) => aioDone f h src dst
    | _ => h
termination_by structural fuel

/-- thread_future_chain_aio(future, aio_future): register the `done` callback
on the source thread future (fired immediately when it is already done, as
concurrent.futures does). -/
def thread_future_chain_aio (fuel : Nat) (h : Heap) (src dst : Nat) : Heap :=
  match fuel with
  | 0 => h
  | f+1 =>
    match h.thread.get? src with
    | some .pending => { h with threadChains := h.threadChains ++ [(src, dst)] }
    | some (.settled _) => threadDone f h src dst
    | _ => h
termination_by structural fuel

end

/-- aio_future_to_thread(aio_future): mint a thread future and chain it to the
given aio future in the thread-to-aio direction, so mutations of the thread
future propagate to the asyncio future but not the other way around.  Returns
the updated heap and the fresh thread future's id. -/
def aio_future_to_thread (fuel : Nat) (h : Heap) (aioId : Nat) : Heap × Nat :=
  let n := h.thread.length
  let h1 : Heap := { h with thread := h.thread ++ [.pending] }
  (thread_future_chain_aio fuel h1 n aioId, n)

/-- A caller-supplied callable already applied to its args: reads the ambient
side-effect log and yields the new log together with a returned value or a
raised exception. -/
def PyFunc := List String → List String × Except Exc Val

/-- A callable returning a fixed value. -/
def pyRet (v : Val) : PyFunc := fun log => (log, .ok v)

/-- A callable raising a fixed exception. -/
def pyRaise (e : Exc) : PyFunc := fun log => (log, .error e)

/-- A callable whose invocation is observable: it appends a tag to the log
and then returns a value. -/
def pyEffect (tag : String) (v : Val) : PyFunc := fun log => (log ++ [tag], .ok v)

/-- What a single awaitable does when the loop drives it to completion: it
produces a value, raises, or never finishes. -/
inductive AwaitBehavior where
  | ret (v : Val)
  | raiseExc (e : Exc)
  | never

/-- An awaitable together with its optional dunder name attribute, which
await_ consults for the timeout message. -/
structure Awaitable where
  nameAttr : Option String
  behavior : AwaitBehavior

/-- A callback posted onto the loop via call_soon_threadsafe /
run_coroutine_threadsafe, defunctionalized. -/
inductive LoopTask where
  /-- submit's `callback` closure: target thread future and the work. -/
  | submitCb (fid : Nat) (func : PyFunc)
  /-- await_submit's wrapping `coro` for run_coroutine_threadsafe: awaits the
  awaitable and rewraps a future-valued result via aio_future_chain_thread. -/
  | coroTask (fid : Nat) (b : AwaitBehavior)
  /-- run_coroutine_threadsafe on a bare coroutine (async_ctx's aenter path):
  the result is stored raw, with no isfuture rewrapping. -/
  | rawCoro (fid : Nat) (b : AwaitBehavior)
  /-- submit's handle_cancel posting `handle.cancel` onto the loop. -/
  | cancelCb (fid : Nat)

/-- A call_soon_threadsafe handle: the callback plus whether handle.cancel
was invoked on it. -/
structure Handle where
  task : LoopTask
  hcancelled : Bool

/-- The scheduler state: the Python object's fields (`_asyncio_thread is not
None` becomes `running`, `_closed` becomes `closed`, `task_timeout` is kept
as an exact rational) together with the loop-owned futures heap, the loop's
FIFO callback queue and the observable side-effect log. -/
structure LoopScheduler where
  running : Bool
  closed : Bool
  taskTimeout : ℚ
  heap : Heap
  queue : List Handle
  log : List String

/-- The class constant DEFAULT_TASK_TIMEOUT = 5.0 seconds. -/
def DEFAULT_TASK_TIMEOUT : ℚ := 5

def emptyHeap : Heap := ⟨[], [], [], []⟩

/-- LoopScheduler(timeout=t): freshly constructed, not yet running. -/
def LoopScheduler.new (t : ℚ) : LoopScheduler := ⟨false, false, t, emptyHeap, [], []⟩

/-- A scheduler that has been started and has no work in flight. -/
def LoopScheduler.started (t : ℚ) : LoopScheduler := ⟨true, false, t, emptyHeap, [], []⟩

/-- is_closed(). -/
def LoopScheduler.is_closed (s : LoopScheduler) : Bool := s.closed

/-- is_running(): whether the worker thread exists. -/
def LoopScheduler.is_running (s : LoopScheduler) : Bool := s.running

/-- start(): raises RuntimeError when already running, otherwise spawns the
worker thread and blocks until its loop confirms readiness.  Note the code
checks only `_asyncio_thread`; the `_closed` flag is not consulted. -/
def LoopScheduler.start (s : LoopScheduler) : Except Exc LoopScheduler :=
  if s.running then .error (.runtimeError "Already running")
  else .ok { s with running := true }

/-- stop(): a no-op when not running; otherwise settles the stop signal,
waits for the acknowledgement and joins the worker thread (which clears
`_asyncio_thread`). -/
def LoopScheduler.stop (s : LoopScheduler) : LoopScheduler :=
  if s.running then { s with running := false } else s

/-- close(): a no-op when already closed, otherwise stop() and mark closed. -/
def LoopScheduler.close (s : LoopScheduler) : LoopScheduler :=
  if s.closed then s else { s.stop with closed := true }

/-- _ensure_running(): start the loop when it is not running yet. -/
def LoopScheduler.ensure_running (s : LoopScheduler) : LoopScheduler :=
  if s.running then s else { s with running := true }

/-- Modelled from the spec: the exception-capture collaborator
(pytray.futures.capture_exceptions, whose source file is not under src/;
section 6 of the spec specifies it as: given a target future and a block of
code, run the block and, if it raises, store the exception into the future
instead of propagating).  Here the block has already run and `raised` is the
exception it raised, if any; the heap argument reflects any settlement the
block performed before raising. -/
def capture_exceptions (fuel : Nat) (h : Heap) (fid : Nat) (raised : Option Exc) : Heap :=
  match raised with
  | some e => settleThread fuel h fid (.exc e)
  | Option.none => h

/-- submit(func): ensure the loop runs, mint the caller's thread future and
post the guarded callback onto the loop.  Returns the new state and the
future's id. -/
def LoopScheduler.submit (s : LoopScheduler) (func : PyFunc) : LoopScheduler × Nat :=
  let s1 := s.ensure_running
  let fid := s1.heap.thread.length
  let h : Heap := { s1.heap with thread := s1.heap.thread ++ [.pending] }
  ({ s1 with heap := h, queue := s1.queue ++ [⟨.submitCb fid func, false⟩] }, fid)

/-- Cancelling the thread future returned by submit, from the caller's side:
ThreadFuture.cancel() succeeds only while pending, and submit's handle_cancel
done-callback then posts handle.cancel onto the loop. -/
def LoopScheduler.cancelFuture (fuel : Nat) (s : LoopScheduler) (fid : Nat) : LoopScheduler :=
  match s.heap.thread.get? fid with
  | some .pending =>
      let h := settleThread fuel s.heap fid .cancelled
      { s with heap := h, queue := s.queue ++ [⟨.cancelCb fid, false⟩] }
  | _ => s

/-- One iteration of the loop thread: pop the oldest handle and run it unless
its handle.cancel was called.  submit's callback re-checks the future's
cancellation, runs the work inside capture_exceptions, converts a
future-valued result with aio_future_to_thread and stores the result.
await_submit's coro rewraps a future-valued result with
aio_future_chain_thread instead; a raw coroutine stores its result as is. -/
def loopStep (fuel : Nat) (s : LoopScheduler) : LoopScheduler :=
  match s.queue with
  | [] => s
  | hd :: rest =>
    let s1 : LoopScheduler := { s with queue := rest }
    if hd.hcancelled then s1
    else
      match hd.task with
      | .submitCb fid func =>
          match s1.heap.thread.get? fid with
          | some (.settled .cancelled) => s1
          | _ =>
            let lr := func s1.log
            let s2 : LoopScheduler := { s1 with log := lr.1 }
            match lr.2 with
            | .error e => { s2 with heap := capture_exceptions fuel s2.heap fid (some e) }
            | .ok result =>
                match result with
                | .aioFut a =>
                    let p := aio_future_to_thread fuel s2.heap a
                    { s2 with heap := settleThread fuel p.1 fid (.value (.threadFut p.2)) }
                | v => { s2 with heap := settleThread fuel s2.heap fid (.value v) }
      | .coroTask fid b =>
          match b with
          | .never => s1
          | .raiseExc e => { s1 with heap := settleThread fuel s1.heap fid (.exc e) }
          | .ret v =>
              match v with
              | .aioFut a =>
                  let n := s1.heap.thread.length
                  let h1 : Heap := { s1.heap with thread := s1.heap.thread ++ [.pending] }
                  let h2 := aio_future_chain_thread fuel h1 a n
                  { s1 with heap := settleThread fuel h2 fid (.value (.threadFut n)) }
              | w => { s1 with heap := settleThread fuel s1.heap fid (.value w) }
      | .rawCoro fid b =>
          match b with
          | .never => s1
          | .raiseExc e => { s1 with heap := settleThread fuel s1.heap fid (.exc e) }
          | .ret v => { s1 with heap := settleThread fuel s1.heap fid (.value v) }
      | .cancelCb fid =>
          { s1 with
            queue := s1.queue.map fun hd2 =>
              match hd2.task with
              | .submitCb f2 _ => if f2 = fid then { hd2 with hcancelled := true } else hd2
              | _ => hd2 }

/-- The loop thread draining its callback queue in FIFO order. -/
def loopDrain (fuel steps : Nat) (s : LoopScheduler) : LoopScheduler :=
  match steps with
  | 0 => s
  | k+1 =>
    match s.queue with
    | [] => s
    | _ => loopDrain fuel k (loopStep fuel s)

/-- ThreadFuture.result(timeout): once the loop has drained, a still-pending
future never settles, so the bounded wait raises
concurrent.futures.TimeoutError; otherwise return the value, re-raise the
stored exception, or raise CancelledError. -/
def threadFutureResult (h : Heap) (i : Nat) : Except Exc Val :=
  match h.thread.get? i with
  | some (.settled (.value v)) => .ok v
  | some (.settled (.exc e)) => .error e
  | some (.settled .cancelled) => .error .cancelledError
  | _ => .error (.timeoutError "")

/-- The outcome of a blocking call observed by the caller thread. -/
inductive Outcome where
  | ok (v : Val)
  | raised (e : Exc)
  /-- the wait never returns: ThreadFuture.result() with no timeout on a
  future that never settles. -/
  | blockedForever
  deriving Repr, DecidableEq

/-- ThreadFuture.result() with no timeout: blocks forever on a future that
never settles. -/
def threadFutureResultNoTimeout (h : Heap) (i : Nat) : Outcome :=
  match h.thread.get? i with
  | some (.settled (.value v)) => .ok v
  | some (.settled (.exc e)) => .raised e
  | some (.settled .cancelled) => .raised .cancelledError
  | _ => .blockedForever

/-- run(func): submit(func).result(timeout=self.task_timeout), with the loop
thread processing its queue while the caller waits. -/
def LoopScheduler.run (fuel : Nat) (s : LoopScheduler) (func : PyFunc) :
    LoopScheduler × Except Exc Val :=
  let p := s.submit func
  let s2 := loopDrain fuel p.1.queue.length p.1
  (s2, threadFutureResult s2.heap p.2)

/-- await_submit(awaitable): ensure the loop runs and schedule the wrapping
coro with run_coroutine_threadsafe, returning its thread future. -/
def LoopScheduler.await_submit (s : LoopScheduler) (b : AwaitBehavior) :
    LoopScheduler × Nat :=
  let s1 := s.ensure_running
  let fid := s1.heap.thread.length
  let h : Heap := { s1.heap with thread := s1.heap.thread ++ [.pending] }
  ({ s1 with heap := h, queue := s1.queue ++ [⟨.coroTask fid b, false⟩] }, fid)

/-- run_coroutine_threadsafe on a bare coroutine (async_ctx's enter path):
like await_submit but without the isfuture rewrapping coro. -/
def LoopScheduler.runCoroThreadsafe (s : LoopScheduler) (b : AwaitBehavior) :
    LoopScheduler × Nat :=
  let fid := s.heap.thread.length
  let h : Heap := { s.heap with thread := s.heap.thread ++ [.pending] }
  ({ s with heap := h, queue := s.queue ++ [⟨.rawCoro fid b, false⟩] }, fid)

/-- The name await_ uses in its timeout message:
`name or getattr(awaitable, "__name__", "Awaitable")`. -/
def effName (nm attr : Option String) : String :=
  match nm with
  | some n => if n = "" then attr.getD "Awaitable" else n
  | Option.none => attr.getD "Awaitable"

/-- How Python's str renders the float task_timeout into the message
(only integral timeouts such as 5.0 or 1.0 occur in the claims). -/
def floatRepr (q : ℚ) : String :=
  if q.den = 1 then toString q.num ++ ".0"
  else toString q.num ++ "/" ++ toString q.den

/-- await_(awaitable, name=nm): await_submit(awaitable).result(timeout=
self.task_timeout), rewrapping a TimeoutError into one whose message names
the awaitable and the configured timeout. -/
def LoopScheduler.await_ (fuel : Nat) (s : LoopScheduler) (a : Awaitable)
    (nm : Option String) : LoopScheduler × Except Exc Val :=
  let p := s.await_submit a.behavior
  let s2 := loopDrain fuel p.1.queue.length p.1
  match threadFutureResult s2.heap p.2 with
  | .error (.timeoutError _) =>
      (s2, .error (.timeoutError
        (effName nm a.nameAttr ++ " after " ++ floatRepr s2.taskTimeout ++ " seconds")))
  | r => (s2, r)

/-- An async context manager: the behaviour of its __aenter__() coroutine,
the behaviour of __aexit__(exc_info) as a function of the forwarded exception
info (Option.none models (None, None, None)), and the __aexit__ coroutine's
dunder name for await_'s message. -/
structure AsyncCtxMgr where
  aenterB : AwaitBehavior
  aexitB : Option Exc → AwaitBehavior
  aexitName : Option String

/-- async_ctx(ctx_manager) driving a with-block `body` (which receives the
entered value and either finishes or raises).  Returns the final state, the
caller-visible outcome, and the list of exc-infos __aexit__ was awaited with.
The enter wait is `run_coroutine_threadsafe(aenter(), loop).result()` - no
timeout - while both exit paths go through await_.  `except Exception` does
not catch CancelledError raised by the body. -/
def LoopScheduler.async_ctx (fuel : Nat) (s : LoopScheduler) (mgr : AsyncCtxMgr)
    (body : Val → Option Exc) : LoopScheduler × Outcome × List (Option Exc) :=
  let p := s.runCoroThreadsafe mgr.aenterB
  let s2 := loopDrain fuel p.1.queue.length p.1
  match threadFutureResultNoTimeout s2.heap p.2 with
  | .blockedForever => (s2, .blockedForever, [])
  | .raised e => (s2, .raised e, [])
  | .ok v0 =>
      let pv : LoopScheduler × Val :=
        match v0 with
        | .aioFut a =>
            let q := aio_future_to_thread fuel s2.heap a
            ({ s2 with heap := q.1 }, .threadFut q.2)
        | w => (s2, w)
      match body pv.2 with
      | Option.none =>
          let r := pv.1.await_ fuel ⟨mgr.aexitName, mgr.aexitB Option.none⟩ Option.none
          match r.2 with
          | .ok _ => (r.1, .ok Val.none, [Option.none])
          | .error e2 => (r.1, .raised e2, [Option.none])
      | some e =>
          if e.isCancelledKind then (pv.1, .raised e, [])
          else
            let r := pv.1.await_ fuel ⟨mgr.aexitName, mgr.aexitB (some e)⟩ Option.none
            match r.2 with
            | .ok v2 => if v2.truthy then (r.1, .ok Val.none, [some e])
                        else (r.1, .raised e, [some e])
            | .error e2 => (r.1, .raised e2, [some e])

/-- async_iter(aiterable): repeatedly await_ the iterator's __anext__ until
StopAsyncIteration, yielding each element to the calling thread.  The source
iterator is its remaining elements; __anext__ on a non-empty remainder
completes with the head, on an exhausted one raises StopAsyncIteration.
Returns the final state, the yielded elements, and whether the generator
terminated cleanly at the end-of-sequence signal. -/
def LoopScheduler.async_iter (fuel : Nat) (s : LoopScheduler) (elems : List Val) :
    LoopScheduler × List Val × Bool :=
  match elems with
  | [] =>
      let r := s.await_ fuel ⟨some "__anext__", .raiseExc .stopAsyncIteration⟩ Option.none
      match r.2 with
      | .error .stopAsyncIteration => (r.1, [], true)
      | .error _ => (r.1, [], false)
      | .ok v => (r.1, [v], false)
  | x :: rest =>
      let r := s.await_ fuel ⟨some "__anext__", .ret x⟩ Option.none
      match r.2 with
      | .error .stopAsyncIteration => (r.1, [], true)
      | .error _ => (r.1, [], false)
      | .ok v =>
          let q := r.1.async_iter fuel rest
          (q.1, v :: q.2.1, q.2.2)

/-! Helper lemmas about minting a fresh future at the end of the heap. -/

theorem getq_concat {α : Type} (l : List α) (x : α) :
    (l ++ [x]).get? l.length = some x := by
  induction l with
  | nil => rfl
  | cons a t ih => simp only [List.cons_append, List.length_cons, List.get?]; exact ih

theorem set_concat {α : Type} (l : List α) (x y : α) :
    (l ++ [x]).set l.length y = l ++ [y] := by
  induction l with
  | nil => rfl
  | cons a t ih =>
      show a :: ((t ++ [x]).set t.length y) = a :: (t ++ [y])
      rw [ih]

/-! Claim C3: the behaviour of aio_future_chain_thread's done-callback. -/

/-- A heap with two pending aio futures (0 the chain source, 1 an inner
future) and one pending thread future (0, the chain destination). -/
def c3heap : Heap := ⟨[.pending, .pending], [.pending], [], []⟩

/-- c3heap with aio future 0 chained to thread future 0 by
aio_future_chain_thread. -/
def c3chained : Heap := aio_future_chain_thread 9 c3heap 0 0

/-- Claim C3: aio_future_chain_thread registers a done-callback on the source
aio future such that, when the source settles: a value that is itself an aio
future leads to a fresh thread future being created, recursively chained to
the inner future, and propagated as the value instead of the raw inner
future; any other value is set on the destination; cancellation of the
source cancels the destination; an exception is set on the destination. -/
theorem aio_future_chain_thread_spec :
    c3chained.aioChains = [(0, 0)]
    ∧ (∀ v : Val, v.isfuture = false →
        (settleAio 9 c3chained 0 (.value v)).thread.get? 0
          = some (.settled (.value v)))
    ∧ (settleAio 9 c3chained 0 .cancelled).thread.get? 0 = some (.settled .cancelled)
    ∧ (∀ e : Exc,
        (settleAio 9 c3chained 0 (.exc e)).thread.get? 0
          = some (.settled (.exc e)))
    ∧ ((settleAio 9 c3chained 0 (.value (.aioFut 1))).thread.get? 0
          = some (.settled (.value (.threadFut 1)))
      ∧ (settleAio 9 c3chained 0 (.value (.aioFut 1))).thread.get? 1 = some .pending
      ∧ (settleAio 9 c3chained 0 (.value (.aioFut 1))).aioChains = [(0, 0), (1, 1)]
      ∧ (∀ v : Val, v.isfuture = false →
          (settleAio 9 (settleAio 9 c3chained 0 (.value (.aioFut 1))) 1
              (.value v)).thread.get? 1
            = some (.settled (.value v)))) := by
  refine ⟨by decide, ?_, by decide, fun e => ?_, by decide, by decide, by decide, ?_⟩
  · intro v hv
    cases v <;> first | rfl | simp [Val.isfuture] at hv
  · cases e <;> rfl
  · intro v hv
    cases v <;> first | rfl | simp [Val.isfuture] at hv

/-- Witness for C3: the concrete clauses that carry hypotheses, discharged at
the string value "x" and the integer value 7. -/
theorem aio_future_chain_thread_spec_witness :
    Val.isfuture (.str "x") = false
    ∧ (settleAio 9 c3chained 0 (.value (.str "x"))).thread.get? 0
        = some (.settled (.value (.str "x")))
    ∧ (settleAio 9 (settleAio 9 c3chained 0 (.value (.aioFut 1))) 1
          (.value (.int 7))).thread.get? 1
        = some (.settled (.value (.int 7))) :=
  ⟨by decide, aio_future_chain_thread_spec.2.1 (.str "x") rfl,
    aio_future_chain_thread_spec.2.2.2.2.2.2.2 (.int 7) rfl⟩

/-! Claim C5: lifecycle.  The code raises on start() of a running scheduler
and allows stop() then start(); but close() does not prevent a restart:
start() checks only the thread handle, never the _closed flag, so
close() followed by start() succeeds and the scheduler keeps working. -/

/-- Claim C5 (code behaviour at the claim's failing input): start() on a
running scheduler raises RuntimeError; stop() then start() succeeds and the
restarted loop handles new work; but after close(), start() succeeds and the
closed scheduler keeps executing work, because start() never consults the
_closed flag - contradicting the claim (and the spec's terminal Closed
state). -/
theorem lifecycle_close_not_enforced :
    (LoopScheduler.new 5).start = .ok (LoopScheduler.started 5)
    ∧ (LoopScheduler.started 5).start = .error (.runtimeError "Already running")
    ∧ (LoopScheduler.started 5).stop.start = .ok (LoopScheduler.started 5)
    ∧ (LoopScheduler.run 9 (LoopScheduler.started 5) (pyRet (.int 7))).2 = .ok (.int 7)
    ∧ (LoopScheduler.started 5).close
        = ⟨false, true, 5, emptyHeap, [], []⟩
    ∧ ((LoopScheduler.started 5).close).is_closed = true
    ∧ ((LoopScheduler.started 5).close).start
        = .ok ⟨true, true, 5, emptyHeap, [], []⟩
    ∧ (LoopScheduler.run 9 ⟨true, true, 5, emptyHeap, [], []⟩ (pyRet (.int 42))).2
        = .ok (.int 42) :=
  ⟨rfl, rfl, rfl, rfl, rfl, rfl, rfl, rfl⟩

/-! Claim C1: submitted work returning a value settles the future with that
value, and run returns it. -/

/-- Claim C1: for every timeout t and every (non-future) value v, submitting
work that returns v on a running scheduler yields a future whose result is
v once the loop has processed it, and run returns v directly. -/
theorem submit_run_return_value (t : ℚ) (v : Val) (hv : v.isfuture = false) :
    threadFutureResult
        (loopDrain 9 ((LoopScheduler.started t).submit (pyRet v)).1.queue.length
          ((LoopScheduler.started t).submit (pyRet v)).1).heap
        ((LoopScheduler.started t).submit (pyRet v)).2
      = .ok v
    ∧ (LoopScheduler.run 9 (LoopScheduler.started t) (pyRet v)).2 = .ok v := by
  cases v <;> first | exact ⟨rfl, rfl⟩ | simp [Val.isfuture] at hv

/-- Witness for C1, the spec's scenario: a scheduler with timeout 1.0s and a
no-op returning 42; run returns 42. -/
theorem submit_run_return_value_witness :
    Val.isfuture (.int 42) = false
    ∧ (LoopScheduler.run 9 (LoopScheduler.started 1) (pyRet (.int 42))).2
        = .ok (.int 42) :=
  ⟨by decide, (submit_run_return_value 1 (.int 42) rfl).2⟩

/-! Claim C2: exceptions from submitted work are captured into the future and
the loop keeps serving work. -/

/-- Claim C2: for every exception e raised by submitted work, the returned
future re-raises exactly e on result retrieval (the exception is captured
into the future, never onto the loop's control flow), the scheduler is still
running, and further submitted work is executed normally afterwards. -/
theorem submit_exception_captured (t : ℚ) (e : Exc) (v : Val)
    (hv : v.isfuture = false) :
    (LoopScheduler.run 9 (LoopScheduler.started t) (pyRaise e)).2 = .error e
    ∧ (LoopScheduler.run 9 (LoopScheduler.started t) (pyRaise e)).1.running = true
    ∧ (LoopScheduler.run 9
        (LoopScheduler.run 9 (LoopScheduler.started t) (pyRaise e)).1
        (pyRet v)).2 = .ok v := by
  cases v <;> first | exact ⟨rfl, rfl, rfl⟩ | simp [Val.isfuture] at hv

/-- Witness for C2: a ValueError-raising unit of work followed by one
returning 3. -/
theorem submit_exception_captured_witness :
    Val.isfuture (.int 3) = false
    ∧ (LoopScheduler.run 9 (LoopScheduler.started 5)
        (pyRaise (.valueError "boom"))).2 = .error (.valueError "boom")
    ∧ (LoopScheduler.run 9
        (LoopScheduler.run 9 (LoopScheduler.started 5)
          (pyRaise (.valueError "boom"))).1
        (pyRet (.int 3))).2 = .ok (.int 3) :=
  ⟨by decide, (submit_exception_captured 5 (.valueError "boom") (.int 3) rfl).1,
    (submit_exception_captured 5 (.valueError "boom") (.int 3) rfl).2.2⟩

/-! Claim C4: what submit actually does with a future-valued result.  The
code bridges it with aio_future_to_thread, whose chain direction is
thread-to-aio (its own docstring: mutations of the thread future propagate
to the asyncio future, not the other way around), so the inner cooperative
future's settlement does NOT propagate to the bridged future the caller
sees.  The transparent direction only exists on the await_submit path. -/

/-- A running scheduler whose loop owns one pending aio future (id 0). -/
def c4sched : LoopScheduler := ⟨true, false, 5, ⟨[.pending], [], [], []⟩, [], []⟩

/-- The state after submitting work that returns aio future 0 and letting
the loop process it: thread future 0 is the caller's future, thread future 1
the bridged one stored as its value. -/
def c4drained : LoopScheduler :=
  loopDrain 9 (c4sched.submit (pyRet (.aioFut 0))).1.queue.length
    (c4sched.submit (pyRet (.aioFut 0))).1

/-- Counterexample to C4 as stated: after submit's work returns aio future 0,
the caller's future holds bridged thread future 1, but settling the inner
aio future with 7 leaves thread future 1 pending - the inner cooperative
future's settlement does not propagate to it, and the caller's wait on it
times out instead of resolving to 7. -/
theorem submit_future_no_inward_propagation :
    threadFutureResult c4drained.heap 0 = .ok (.threadFut 1)
    ∧ (settleAio 9 c4drained.heap 0 (.value (.int 7))).thread.get? 1
        = some .pending
    ∧ threadFutureResult (settleAio 9 c4drained.heap 0 (.value (.int 7))) 1
        = .error (.timeoutError "")
    ∧ ¬ threadFutureResult (settleAio 9 c4drained.heap 0 (.value (.int 7))) 1
        = .ok (.int 7) := by
  refine ⟨rfl, by decide, rfl, ?_⟩
  intro hco
  rw [show threadFutureResult (settleAio 9 c4drained.heap 0 (.value (.int 7))) 1
      = .error (.timeoutError "") from rfl] at hco
  exact Except.noConfusion hco

/-- A running scheduler whose loop owns one aio future (id 0) already
settled with the value 7, for the await_submit transparency clause. -/
def c4sched2 : LoopScheduler :=
  ⟨true, false, 5, ⟨[.settled (.value (.int 7))], [], [], []⟩, [], []⟩

/-- Claim C4 (amended): when work passed to submit returns a cooperative
future, the stored value is a fresh BlockingFuture bridged via
thread_future_chain_aio, i.e. in the blocking-to-cooperative direction:
settling the fresh future propagates to the inner aio future (but not the
reverse).  Transparent one-level resolution to the inner result holds on
the await_submit path, which chains with aio_future_chain_thread. -/
theorem submit_future_bridged_outward :
    threadFutureResult c4drained.heap 0 = .ok (.threadFut 1)
    ∧ c4drained.heap.threadChains = [(1, 0)]
    ∧ (∀ v : Val, v.isThreadFuture = false →
        (settleThread 9 c4drained.heap 1 (.value v)).aio.get? 0
          = some (.settled (.value v)))
    ∧ (c4sched2.await_ 9 ⟨Option.none, .ret (.aioFut 0)⟩ Option.none).2
        = .ok (.threadFut 1)
    ∧ threadFutureResult
        (c4sched2.await_ 9 ⟨Option.none, .ret (.aioFut 0)⟩ Option.none).1.heap 1
      = .ok (.int 7) := by
  refine ⟨rfl, by decide, ?_, rfl, rfl⟩
  intro v hv
  cases v <;> first | rfl | simp [Val.isThreadFuture] at hv

/-- Witness for the amended C4: settling the bridged thread future with 3
settles the inner aio future with 3. -/
theorem submit_future_bridged_outward_witness :
    Val.isThreadFuture (.int 3) = false
    ∧ (settleThread 9 c4drained.heap 1 (.value (.int 3))).aio.get? 0
        = some (.settled (.value (.int 3))) :=
  ⟨by decide, submit_future_bridged_outward.2.2.1 (.int 3) rfl⟩

/-! Claim C6: cancellation of a submitted future. -/

/-- Claim C6: for every timeout and every unit of work, cancelling the
future returned by submit before the loop runs its callback prevents the
callback's side effects entirely (the work function is never invoked, the
log stays empty) and the future reports cancellation; and once the loop has
run the callback (the side effect is in the log and the result is set),
cancelling is a no-op that changes nothing. -/
theorem submit_cancel_semantics (t : ℚ) :
    (∀ w : PyFunc,
      (loopDrain 9
          (LoopScheduler.cancelFuture 9 ((LoopScheduler.started t).submit w).1
            ((LoopScheduler.started t).submit w).2).queue.length
          (LoopScheduler.cancelFuture 9 ((LoopScheduler.started t).submit w).1
            ((LoopScheduler.started t).submit w).2)).log = []
      ∧ threadFutureResult
          (loopDrain 9
            (LoopScheduler.cancelFuture 9 ((LoopScheduler.started t).submit w).1
              ((LoopScheduler.started t).submit w).2).queue.length
            (LoopScheduler.cancelFuture 9 ((LoopScheduler.started t).submit w).1
              ((LoopScheduler.started t).submit w).2)).heap
          ((LoopScheduler.started t).submit w).2
        = .error .cancelledError)
    ∧ (∀ (tag : String) (v : Val), v.isfuture = false →
      (loopDrain 9 ((LoopScheduler.started t).submit (pyEffect tag v)).1.queue.length
          ((LoopScheduler.started t).submit (pyEffect tag v)).1).log = [tag]
      ∧ threadFutureResult
          (loopDrain 9 ((LoopScheduler.started t).submit (pyEffect tag v)).1.queue.length
            ((LoopScheduler.started t).submit (pyEffect tag v)).1).heap
          ((LoopScheduler.started t).submit (pyEffect tag v)).2
        = .ok v
      ∧ LoopScheduler.cancelFuture 9
          (loopDrain 9 ((LoopScheduler.started t).submit (pyEffect tag v)).1.queue.length
            ((LoopScheduler.started t).submit (pyEffect tag v)).1)
          ((LoopScheduler.started t).submit (pyEffect tag v)).2
        = loopDrain 9 ((LoopScheduler.started t).submit (pyEffect tag v)).1.queue.length
            ((LoopScheduler.started t).submit (pyEffect tag v)).1) := by
  constructor
  · intro w
    exact ⟨rfl, rfl⟩
  · intro tag v hv
    cases v <;> first | exact ⟨rfl, rfl, rfl⟩ | simp [Val.isfuture] at hv

/-- Witness for C6: work that logs "ran" and returns 1; before-cancellation
prevents the effect, after-execution cancellation is a no-op. -/
theorem submit_cancel_semantics_witness :
    (loopDrain 9
        (LoopScheduler.cancelFuture 9
          ((LoopScheduler.started 5).submit (pyEffect "ran" (.int 1))).1
          ((LoopScheduler.started 5).submit (pyEffect "ran" (.int 1))).2).queue.length
        (LoopScheduler.cancelFuture 9
          ((LoopScheduler.started 5).submit (pyEffect "ran" (.int 1))).1
          ((LoopScheduler.started 5).submit (pyEffect "ran" (.int 1))).2)).log = []
    ∧ Val.isfuture (.int 1) = false
    ∧ (loopDrain 9
        ((LoopScheduler.started 5).submit (pyEffect "ran" (.int 1))).1.queue.length
        ((LoopScheduler.started 5).submit (pyEffect "ran" (.int 1))).1).log = ["ran"] :=
  ⟨((submit_cancel_semantics 5).1 (pyEffect "ran" (.int 1))).1, by decide,
    ((submit_cancel_semantics 5).2 "ran" (.int 1) rfl).1⟩

/-! Claim C7: await_ and its timeout message. -/

/-- Claim C7: await_ is await_submit(task).result(timeout=task_timeout): a
completing awaitable gives its value (equal to reading the await_submit
future directly), a raising awaitable re-raises; and when the wait exceeds
the timeout it raises a TimeoutError whose message carries the awaitable's
name (the supplied one, else the dunder name attribute, else "Awaitable")
and the configured timeout, which defaults to 5.0 seconds. -/
theorem await_timeout_message (t : ℚ) :
    (∀ (v : Val), v.isfuture = false → ∀ (nm attr : Option String),
      (LoopScheduler.await_ 9 (LoopScheduler.started t) ⟨attr, .ret v⟩ nm).2 = .ok v
      ∧ threadFutureResult
          (loopDrain 9
            ((LoopScheduler.started t).await_submit (.ret v)).1.queue.length
            ((LoopScheduler.started t).await_submit (.ret v)).1).heap
          ((LoopScheduler.started t).await_submit (.ret v)).2
        = .ok v)
    ∧ (∀ (e : Exc), e.isTimeoutKind = false → ∀ (nm attr : Option String),
      (LoopScheduler.await_ 9 (LoopScheduler.started t) ⟨attr, .raiseExc e⟩ nm).2
        = .error e)
    ∧ (∀ (nm attr : Option String),
      (LoopScheduler.await_ 9 (LoopScheduler.started t) ⟨attr, .never⟩ nm).2
        = .error (.timeoutError
            (effName nm attr ++ " after " ++ floatRepr t ++ " seconds")))
    ∧ effName Option.none Option.none = "Awaitable"
    ∧ effName Option.none (some "coro") = "coro"
    ∧ effName (some "task") (some "coro") = "task"
    ∧ effName (some "") (some "coro") = "coro"
    ∧ DEFAULT_TASK_TIMEOUT = 5
    ∧ floatRepr DEFAULT_TASK_TIMEOUT = "5.0" := by
  refine ⟨?_, ?_, fun nm attr => rfl, by decide, by decide, by decide, by decide,
    by decide, by decide⟩
  · intro v hv nm attr
    cases v <;> first | exact ⟨rfl, rfl⟩ | simp [Val.isfuture] at hv
  · intro e he nm attr
    cases e <;> first | rfl | simp [Exc.isTimeoutKind] at he

/-- Witness for C7: a never-completing awaitable named "fetch" on the
default 5.0-second timeout produces the annotated message. -/
theorem await_timeout_message_witness :
    Val.isfuture (.int 2) = false
    ∧ (LoopScheduler.await_ 9 (LoopScheduler.started 5)
        ⟨Option.none, .ret (.int 2)⟩ Option.none).2 = .ok (.int 2)
    ∧ (LoopScheduler.await_ 9 (LoopScheduler.started 5)
        ⟨Option.none, .never⟩ (some "fetch")).2
      = .error (.timeoutError "fetch after 5.0 seconds") := by
  refine ⟨by decide,
    ((await_timeout_message 5).1 (.int 2) rfl Option.none Option.none).1, ?_⟩
  have h := (await_timeout_message 5).2.2.1 (some "fetch") Option.none
  simpa using h

/-! Claim C8: async_ctx's exit protocol. -/

/-- An async context manager whose enter produces `v` and whose exit
completes with the boolean suppression result `b`. -/
def c8mgr (v : Val) (b : Bool) (an : Option String) : AsyncCtxMgr :=
  ⟨.ret v, fun _ => .ret (.bool b), an⟩

set_option maxHeartbeats 2000000 in
/-- Claim C8: on normal exit of the scoped block, aexit is awaited with no
exception info (and its result is ignored); when the block raises e (an
Exception - CancelledError is not caught by the bare except), aexit is
awaited with e's info and the caller sees e re-raised exactly when the exit
result is not truthy, while a truthy result swallows it. -/
theorem async_ctx_exit_protocol (t : ℚ) (v : Val) (hv : v.isfuture = false)
    (b : Bool) (an : Option String) :
    (((LoopScheduler.started t).async_ctx 9 (c8mgr v b an)
        (fun _ => Option.none)).2.1 = .ok Val.none
      ∧ ((LoopScheduler.started t).async_ctx 9 (c8mgr v b an)
        (fun _ => Option.none)).2.2 = [Option.none])
    ∧ (∀ (e : Exc), e.isCancelledKind = false →
      ((LoopScheduler.started t).async_ctx 9 (c8mgr v b an)
          (fun _ => some e)).2.2 = [some e]
      ∧ ((LoopScheduler.started t).async_ctx 9 (c8mgr v b an)
          (fun _ => some e)).2.1
        = (if b then Outcome.ok Val.none else .raised e)) := by
  cases v <;> first
  | exact Bool.noConfusion hv
  | (refine ⟨⟨rfl, rfl⟩, ?_⟩
     intro e he
     cases e <;> first
       | exact Bool.noConfusion he
       | (cases b <;> exact ⟨rfl, rfl⟩))

/-- Witness for C8: entering with 10, a raising block, and an exit that does
not suppress: exit sees the exception and it is re-raised; with a
suppressing exit it is swallowed. -/
theorem async_ctx_exit_protocol_witness :
    Val.isfuture (.int 10) = false
    ∧ ((LoopScheduler.started 5).async_ctx 9 (c8mgr (.int 10) false Option.none)
        (fun _ => some (.valueError "err"))).2.1 = .raised (.valueError "err")
    ∧ ((LoopScheduler.started 5).async_ctx 9 (c8mgr (.int 10) true Option.none)
        (fun _ => some (.valueError "err"))).2.1 = .ok Val.none
    ∧ ((LoopScheduler.started 5).async_ctx 9 (c8mgr (.int 10) true Option.none)
        (fun _ => Option.none)).2.2 = [Option.none] := by
  refine ⟨by decide, ?_, ?_, ?_⟩
  · have h := ((async_ctx_exit_protocol 5 (.int 10) rfl false Option.none).2
      (.valueError "err") rfl).2
    simpa using h
  · have h := ((async_ctx_exit_protocol 5 (.int 10) rfl true Option.none).2
      (.valueError "err") rfl).2
    simpa using h
  · exact (async_ctx_exit_protocol 5 (.int 10) rfl true Option.none).1.2

/-! Claim C10: the enter wait of async_ctx has no timeout, while both exit
paths go through await_ and are bounded by the configured timeout. -/

/-- Claim C10: a never-completing enter blocks the calling thread forever
(no timeout error is ever raised, the block and exit never run), whereas a
never-completing exit makes either exit path raise the annotated
TimeoutError after the configured timeout. -/
theorem async_ctx_enter_unbounded_exit_bounded (t : ℚ) :
    (∀ (bd : Val → Option Exc) (an : Option String)
        (ex : Option Exc → AwaitBehavior),
      ((LoopScheduler.started t).async_ctx 9 ⟨.never, ex, an⟩ bd).2.1
          = .blockedForever
      ∧ ((LoopScheduler.started t).async_ctx 9 ⟨.never, ex, an⟩ bd).2.2 = [])
    ∧ (∀ (v : Val), v.isfuture = false → ∀ (an : Option String),
      (((LoopScheduler.started t).async_ctx 9 ⟨.ret v, fun _ => .never, an⟩
          (fun _ => Option.none)).2.1
        = .raised (.timeoutError
            (effName Option.none an ++ " after " ++ floatRepr t ++ " seconds"))
      ∧ ((LoopScheduler.started t).async_ctx 9 ⟨.ret v, fun _ => .never, an⟩
          (fun _ => Option.none)).2.2 = [Option.none])
      ∧ ∀ (e : Exc), e.isCancelledKind = false →
        ((LoopScheduler.started t).async_ctx 9 ⟨.ret v, fun _ => .never, an⟩
            (fun _ => some e)).2.1
          = .raised (.timeoutError
              (effName Option.none an ++ " after " ++ floatRepr t ++ " seconds"))
        ∧ ((LoopScheduler.started t).async_ctx 9 ⟨.ret v, fun _ => .never, an⟩
            (fun _ => some e)).2.2 = [some e]) := by
  refine ⟨fun bd an ex => ⟨rfl, rfl⟩, ?_⟩
  intro v hv an
  cases v <;> first
  | exact Bool.noConfusion hv
  | (refine ⟨⟨rfl, rfl⟩, ?_⟩
     intro e he
     cases e <;> first
       | exact Bool.noConfusion he
       | exact ⟨rfl, rfl⟩)

/-- Witness for C10: with the default 5.0-second timeout and an unnamed
exit coroutine, a never-completing exit on the normal path raises
"Awaitable after 5.0 seconds", while a never-completing enter blocks. -/
theorem async_ctx_enter_unbounded_exit_bounded_witness :
    Val.isfuture (.int 4) = false
    ∧ ((LoopScheduler.started 5).async_ctx 9
        ⟨.never, fun _ => .never, Option.none⟩ (fun _ => Option.none)).2.1
      = .blockedForever
    ∧ ((LoopScheduler.started 5).async_ctx 9
        ⟨.ret (.int 4), fun _ => .never, Option.none⟩ (fun _ => Option.none)).2.1
      = .raised (.timeoutError "Awaitable after 5.0 seconds") := by
  refine ⟨by decide,
    ((async_ctx_enter_unbounded_exit_bounded 5).1 (fun _ => Option.none)
      Option.none (fun _ => .never)).1, ?_⟩
  have h := (((async_ctx_enter_unbounded_exit_bounded 5).2 (.int 4) rfl
    Option.none).1).1
  simpa using h

/-! Claim C9: async_iter yields the elements in order and stops cleanly at
StopAsyncIteration.  The induction steps through await_ on a scheduler with
an empty queue and no thread-future chains, which both await_ of a
completing awaitable and await_ of a raising one preserve. -/

/-- await_ of an awaitable completing with a non-future value, on a
scheduler with an empty queue and no registered thread-future chains:
returns the value and preserves both invariants. -/
theorem await_ret_clean (s : LoopScheduler) (x : Val) (a nm : Option String)
    (hq : s.queue = []) (hc : s.heap.threadChains = []) (hx : x.isfuture = false) :
    (s.await_ 9 ⟨a, .ret x⟩ nm).2 = .ok x
    ∧ (s.await_ 9 ⟨a, .ret x⟩ nm).1.queue = []
    ∧ (s.await_ 9 ⟨a, .ret x⟩ nm).1.heap.threadChains = [] := by
  obtain ⟨r, c, tt, hp, q, lg⟩ := s
  obtain ⟨aio, thr, ac, tc⟩ := hp
  replace hq : q = [] := hq
  replace hc : tc = [] := hc
  subst hq; subst hc
  cases r <;> cases x <;>
    first
    | exact Bool.noConfusion hx
    | (refine ⟨?_, ?_, ?_⟩ <;>
        simp [LoopScheduler.await_, LoopScheduler.await_submit,
          LoopScheduler.ensure_running, loopDrain, loopStep, settleThread,
          fireThreadChains, threadFutureResult, getq_concat, set_concat])

/-- await_ of an awaitable raising a non-timeout exception, on a scheduler
with an empty queue and no registered thread-future chains: re-raises the
exception and preserves both invariants. -/
theorem await_raise_clean (s : LoopScheduler) (e : Exc) (a nm : Option String)
    (hq : s.queue = []) (hc : s.heap.threadChains = [])
    (he : e.isTimeoutKind = false) :
    (s.await_ 9 ⟨a, .raiseExc e⟩ nm).2 = .error e
    ∧ (s.await_ 9 ⟨a, .raiseExc e⟩ nm).1.queue = []
    ∧ (s.await_ 9 ⟨a, .raiseExc e⟩ nm).1.heap.threadChains = [] := by
  obtain ⟨r, c, tt, hp, q, lg⟩ := s
  obtain ⟨aio, thr, ac, tc⟩ := hp
  replace hq : q = [] := hq
  replace hc : tc = [] := hc
  subst hq; subst hc
  cases r <;> cases e <;>
    first
    | exact Bool.noConfusion he
    | (refine ⟨?_, ?_, ?_⟩ <;>
        simp [LoopScheduler.await_, LoopScheduler.await_submit,
          LoopScheduler.ensure_running, loopDrain, loopStep, settleThread,
          fireThreadChains, threadFutureResult, getq_concat, set_concat])

/-- Claim C9: async_iter over a source of (non-future) elements yields
exactly those elements in order to the calling thread and terminates
cleanly at the StopAsyncIteration signal. -/
theorem async_iter_yields_in_order (t : ℚ) (elems : List Val)
    (hall : ∀ v ∈ elems, v.isfuture = false) :
    ((LoopScheduler.started t).async_iter 9 elems).2 = (elems, true) := by
  suffices main : ∀ (el : List Val) (s : LoopScheduler), s.queue = [] →
      s.heap.threadChains = [] → (∀ v ∈ el, v.isfuture = false) →
      (s.async_iter 9 el).2 = (el, true) from main elems _ rfl rfl hall
  intro el
  induction el with
  | nil =>
      intro s hq hc _
      obtain ⟨h1, _, _⟩ := await_raise_clean s .stopAsyncIteration
        (some "__anext__") Option.none hq hc rfl
      simp [LoopScheduler.async_iter, h1]
  | cons x rest ih =>
      intro s hq hc hel
      obtain ⟨h1, h2, h3⟩ := await_ret_clean s x (some "__anext__") Option.none
        hq hc (hel x (by simp))
      have hrest := ih ((s.await_ 9 ⟨some "__anext__", .ret x⟩ Option.none).1)
        h2 h3 (fun v hv => hel v (by simp [hv]))
      simp [LoopScheduler.async_iter, h1, hrest]

/-- Witness for C9, the spec's scenario: a three-element source yields its
three elements in order and then stops cleanly. -/
theorem async_iter_yields_in_order_witness :
    (∀ v ∈ [Val.int 1, Val.int 2, Val.int 3], v.isfuture = false)
    ∧ ((LoopScheduler.started 5).async_iter 9 [Val.int 1, Val.int 2, Val.int 3]).2
      = ([Val.int 1, Val.int 2, Val.int 3], true) :=
  ⟨by decide, async_iter_yields_in_order 5 [Val.int 1, Val.int 2, Val.int 3]
    (by decide)⟩

end Pytray
